import Mathlib

/-!
Verification of `mwpersistence/utilities/persistence2stats.py`.

Shallow embedding of the aggregation core: per-revision token persistence
records are folded into revision-level statistics.  Numeric durations
(`seconds_visible`, `seconds_possible`, the `min_visible` threshold) are
modelled as rationals, revision counts as integers, and the `math.log`
sums as real numbers via `Real.log`.  Python's `int(x)` (truncation
toward zero) is modelled by `pyInt`.
-/

/-- One per-token persistence record, as produced upstream
(`persistence.tokens[i]` in the JSON documents). -/
structure Token where
  text : String
  persisted : Int
  non_self_persisted : Int
  seconds_visible : Rat
deriving DecidableEq

/-- The statistics record written into the `persistence` field by the
aggregator: the eight keys of `stats_doc` in `persistence2stats`. -/
@[ext]
structure Stats where
  tokens_added : Int
  persistent_tokens : Int
  non_self_persistent_tokens : Int
  sum_log_persisted : Real
  sum_log_non_self_persisted : Real
  sum_log_seconds_visible : Real
  censored : Bool
  non_self_censored : Bool

/-- The `persistence` sub-record of a revision document.  `tokens` is an
`Option` so that the state after the Field Pruner (`drop_tokens`) is
representable; `stats` is the aggregation result once written. -/
structure PersistenceDoc where
  tokens : Option (List Token)
  seconds_possible : Rat
  revisions_processed : Int
  non_self_processed : Int
  stats : Option Stats

/-- A revision document: opaque identity/context fields (the type
parameter) plus the required `persistence` record. -/
structure RevDoc (α : Type) where
  context : α
  persistence : PersistenceDoc

/-- Python `int(q)`: truncation toward zero. -/
def pyInt (q : Rat) : Int :=
  if 0 ≤ q then ⌊q⌋ else ⌈q⌉

/-- The initial `stats_doc`: all counters zero, both flags false. -/
def initStats : Stats :=
  { tokens_added := 0
    persistent_tokens := 0
    non_self_persistent_tokens := 0
    sum_log_persisted := 0
    sum_log_non_self_persisted := 0
    sum_log_seconds_visible := 0
    censored := false
    non_self_censored := false }

/-- The body of the `for token_doc in filtered_docs` loop of
`persistence2stats`, for one retained token.  `min_visible` has already
been truncated to an integer (`mvI`), as the source does before the loop;
`sp`, `rp`, `nsp` are the document-level `seconds_possible`,
`revisions_processed` and `non_self_processed` fields. -/
noncomputable def tokenStep (mp mvI : Int) (sp : Rat) (rp nsp : Int)
    (s : Stats) (t : Token) : Stats :=
  let s1 : Stats :=
    { s with
      tokens_added := s.tokens_added + 1
      sum_log_persisted :=
        s.sum_log_persisted + Real.log ((t.persisted : Real) + 1)
      sum_log_non_self_persisted :=
        s.sum_log_non_self_persisted +
          Real.log ((t.non_self_persisted : Real) + 1)
      sum_log_seconds_visible :=
        s.sum_log_seconds_visible +
          Real.log ((t.seconds_visible : Real) + 1) }
  if ((mvI : Rat) ≤ t.seconds_visible) then
    { s1 with
      persistent_tokens := s1.persistent_tokens + 1
      non_self_persistent_tokens := s1.non_self_persistent_tokens + 1 }
  else
    let s2 : Stats :=
      { s1 with
        persistent_tokens :=
          s1.persistent_tokens + (if mp ≤ t.persisted then 1 else 0)
        non_self_persistent_tokens :=
          s1.non_self_persistent_tokens +
            (if mp ≤ t.non_self_persisted then 1 else 0) }
    if sp < (mvI : Rat) then
      { s2 with censored := true, non_self_censored := true }
    else
      let s3 : Stats :=
        if rp < mp then { s2 with censored := true } else s2
      if nsp < mp then { s3 with non_self_censored := true } else s3

/-- The token filter of `persistence2stats`:
`include(t.text) and not exclude(t.text)`. -/
def passFilter (inc exc : String → Bool) (t : Token) : Bool :=
  inc t.text && !exc t.text

/-- The whole per-document statistics computation: filter the token
list, then fold `tokenStep` from `initStats`. -/
noncomputable def docStats (mp mvI : Int) (inc exc : String → Bool)
    (sp : Rat) (rp nsp : Int) (ts : List Token) : Stats :=
  (ts.filter (passFilter inc exc)).foldl (tokenStep mp mvI sp rp nsp) initStats

/-- Resolution of the optional `include` predicate:
`include if include is not None else lambda t: True`. -/
def resolveInc (inc? : Option (String → Bool)) : String → Bool :=
  inc?.getD (fun _ => true)

/-- Resolution of the optional `exclude` predicate:
`exclude if exclude is not None else lambda t: False`. -/
def resolveExc (exc? : Option (String → Bool)) : String → Bool :=
  exc?.getD (fun _ => false)

/-- Processing of a single revision document by `persistence2stats`:
truncate `min_visible`, resolve the filter defaults, compute the stats
from `persistence.tokens`, and merge them into the `persistence` record
(`rev_doc['persistence'].update(stats_doc)`).  `none` models the
`KeyError` raised when the `tokens` field is absent (precondition
violation). -/
noncomputable def aggregateDoc {α : Type} (mp : Int) (mv : Rat)
    (inc? exc? : Option (String → Bool)) (d : RevDoc α) : Option (RevDoc α) :=
  match d.persistence.tokens with
  | none => none
  | some ts =>
      let s := docStats mp (pyInt mv) (resolveInc inc?) (resolveExc exc?)
        d.persistence.seconds_possible
        d.persistence.revisions_processed
        d.persistence.non_self_processed ts
      some { d with persistence := { d.persistence with stats := some s } }

/-- One step of `drop_tokens`: `rev_doc['persistence'].pop('tokens', None)`. -/
def dropTokensDoc {α : Type} (d : RevDoc α) : RevDoc α :=
  { d with persistence := { d.persistence with tokens := none } }

/-- The Field Pruner `drop_tokens` over a document stream. -/
def drop_tokens {α : Type} (docs : List (RevDoc α)) : List (RevDoc α) :=
  docs.map dropTokensDoc

/-- The loop body with the verbose side channel: when `verbose` is set,
a `"."` is written to stderr before the token is processed. -/
noncomputable def tokenStepV (verbose : Bool) (mp mvI : Int) (sp : Rat)
    (rp nsp : Int) (acc : Stats × List String) (t : Token) :
    Stats × List String :=
  (tokenStep mp mvI sp rp nsp acc.1 t,
   if verbose then acc.2 ++ ["."] else acc.2)

/-- Single-document processing with the verbose side channel: the second
component collects what was written to stderr (a dot per retained token,
then a newline). -/
noncomputable def aggregateDocV {α : Type} (verbose : Bool) (mp : Int)
    (mv : Rat) (inc? exc? : Option (String → Bool)) (d : RevDoc α) :
    Option (RevDoc α) × List String :=
  match d.persistence.tokens with
  | none => (none, [])
  | some ts =>
      let r := (ts.filter (passFilter (resolveInc inc?) (resolveExc exc?))).foldl
        (tokenStepV verbose mp (pyInt mv)
          d.persistence.seconds_possible
          d.persistence.revisions_processed
          d.persistence.non_self_processed) (initStats, [])
      (some { d with persistence := { d.persistence with stats := some r.1 } },
       r.2 ++ (if verbose then ["\n"] else []))

/-- The generator `persistence2stats` over a document stream, with the
verbose side channel.  The first component is the output stream (`none`
when some document misses its `tokens` field and the run dies with a
`KeyError`); the second component is the diagnostic output. -/
noncomputable def persistence2stats {α : Type} (verbose : Bool) (mp : Int)
    (mv : Rat) (inc? exc? : Option (String → Bool)) :
    List (RevDoc α) → Option (List (RevDoc α)) × List String
  | [] => (some [], [])
  | d :: ds =>
      let r := aggregateDocV verbose mp mv inc? exc? d
      match r.1 with
      | none => (none, r.2)
      | some d' =>
          let rest := persistence2stats verbose mp mv inc? exc? ds
          (rest.1.map (fun l => d' :: l), r.2 ++ rest.2)

/-- The contribution of one retained token to `persistent_tokens`:
`1` on the time branch, otherwise the boolean `persisted >= min_persisted`. -/
def persistContrib (mp mvI : Int) (t : Token) : Int :=
  if (mvI : Rat) ≤ t.seconds_visible then 1
  else if mp ≤ t.persisted then 1 else 0

/-- The contribution of one retained token to `non_self_persistent_tokens`. -/
def nsPersistContrib (mp mvI : Int) (t : Token) : Int :=
  if (mvI : Rat) ≤ t.seconds_visible then 1
  else if mp ≤ t.non_self_persisted then 1 else 0

/-- Whether one retained token sets the `censored` flag. -/
def censContrib (mp mvI : Int) (sp : Rat) (rp : Int) (t : Token) : Bool :=
  !(decide ((mvI : Rat) ≤ t.seconds_visible)) &&
    (decide (sp < (mvI : Rat)) || decide (rp < mp))

/-- Whether one retained token sets the `non_self_censored` flag. -/
def nsCensContrib (mp mvI : Int) (sp : Rat) (nsp : Int) (t : Token) : Bool :=
  !(decide ((mvI : Rat) ≤ t.seconds_visible)) &&
    (decide (sp < (mvI : Rat)) || decide (nsp < mp))

/-- Example document for Scenario A of the spec: one token with
`persisted = 6`, `non_self_persisted = 2`, `seconds_visible = 100`;
`seconds_possible = 40000`, `revisions_processed = 6`,
`non_self_processed = 3`. -/
def scenarioADoc : RevDoc Unit :=
  { context := ()
    persistence :=
      { tokens := some [{ text := "x", persisted := 6, non_self_persisted := 2,
                          seconds_visible := 100 }]
        seconds_possible := 40000
        revisions_processed := 6
        non_self_processed := 3
        stats := none } }

lemma tokenStep_tokens_added (mp mvI : Int) (sp : Rat) (rp nsp : Int)
    (s : Stats) (t : Token) :
    (tokenStep mp mvI sp rp nsp s t).tokens_added = s.tokens_added + 1 := by
  unfold tokenStep
  split_ifs <;> rfl

lemma tokenStep_sum_log_persisted (mp mvI : Int) (sp : Rat) (rp nsp : Int)
    (s : Stats) (t : Token) :
    (tokenStep mp mvI sp rp nsp s t).sum_log_persisted =
      s.sum_log_persisted + Real.log ((t.persisted : Real) + 1) := by
  unfold tokenStep
  split_ifs <;> rfl

lemma tokenStep_sum_log_non_self_persisted (mp mvI : Int) (sp : Rat)
    (rp nsp : Int) (s : Stats) (t : Token) :
    (tokenStep mp mvI sp rp nsp s t).sum_log_non_self_persisted =
      s.sum_log_non_self_persisted +
        Real.log ((t.non_self_persisted : Real) + 1) := by
  unfold tokenStep
  split_ifs <;> rfl

lemma tokenStep_sum_log_seconds_visible (mp mvI : Int) (sp : Rat)
    (rp nsp : Int) (s : Stats) (t : Token) :
    (tokenStep mp mvI sp rp nsp s t).sum_log_seconds_visible =
      s.sum_log_seconds_visible +
        Real.log ((t.seconds_visible : Real) + 1) := by
  unfold tokenStep
  split_ifs <;> rfl

lemma tokenStep_persistent_tokens (mp mvI : Int) (sp : Rat) (rp nsp : Int)
    (s : Stats) (t : Token) :
    (tokenStep mp mvI sp rp nsp s t).persistent_tokens =
      s.persistent_tokens + persistContrib mp mvI t := by
  unfold tokenStep persistContrib
  split_ifs <;> rfl

lemma tokenStep_non_self_persistent_tokens (mp mvI : Int) (sp : Rat)
    (rp nsp : Int) (s : Stats) (t : Token) :
    (tokenStep mp mvI sp rp nsp s t).non_self_persistent_tokens =
      s.non_self_persistent_tokens + nsPersistContrib mp mvI t := by
  unfold tokenStep nsPersistContrib
  split_ifs <;> rfl

lemma tokenStep_censored (mp mvI : Int) (sp : Rat) (rp nsp : Int)
    (s : Stats) (t : Token) :
    (tokenStep mp mvI sp rp nsp s t).censored =
      (s.censored || censContrib mp mvI sp rp t) := by
  unfold tokenStep censContrib
  split_ifs <;> simp_all

lemma tokenStep_non_self_censored (mp mvI : Int) (sp : Rat) (rp nsp : Int)
    (s : Stats) (t : Token) :
    (tokenStep mp mvI sp rp nsp s t).non_self_censored =
      (s.non_self_censored || nsCensContrib mp mvI sp nsp t) := by
  unfold tokenStep nsCensContrib
  split_ifs <;> simp_all

lemma foldl_tokenStep_tokens_added (mp mvI : Int) (sp : Rat) (rp nsp : Int)
    (l : List Token) : ∀ s : Stats,
    (l.foldl (tokenStep mp mvI sp rp nsp) s).tokens_added =
      s.tokens_added + l.length := by
  induction l with
  | nil => intro s; simp
  | cons t l ih =>
      intro s
      simp only [List.foldl_cons, ih, tokenStep_tokens_added, List.length_cons]
      omega

lemma foldl_tokenStep_persistent_tokens (mp mvI : Int) (sp : Rat)
    (rp nsp : Int) (l : List Token) : ∀ s : Stats,
    (l.foldl (tokenStep mp mvI sp rp nsp) s).persistent_tokens =
      s.persistent_tokens + (l.map (persistContrib mp mvI)).sum := by
  induction l with
  | nil => intro s; simp
  | cons t l ih =>
      intro s
      simp only [List.foldl_cons, ih, tokenStep_persistent_tokens,
        List.map_cons, List.sum_cons]
      omega

lemma foldl_tokenStep_non_self_persistent_tokens (mp mvI : Int) (sp : Rat)
    (rp nsp : Int) (l : List Token) : ∀ s : Stats,
    (l.foldl (tokenStep mp mvI sp rp nsp) s).non_self_persistent_tokens =
      s.non_self_persistent_tokens + (l.map (nsPersistContrib mp mvI)).sum := by
  induction l with
  | nil => intro s; simp
  | cons t l ih =>
      intro s
      simp only [List.foldl_cons, ih, tokenStep_non_self_persistent_tokens,
        List.map_cons, List.sum_cons]
      omega

lemma foldl_tokenStep_sum_log_persisted (mp mvI : Int) (sp : Rat)
    (rp nsp : Int) (l : List Token) : ∀ s : Stats,
    (l.foldl (tokenStep mp mvI sp rp nsp) s).sum_log_persisted =
      s.sum_log_persisted +
        (l.map (fun t => Real.log ((t.persisted : Real) + 1))).sum := by
  induction l with
  | nil => intro s; simp
  | cons t l ih =>
      intro s
      simp only [List.foldl_cons, ih, tokenStep_sum_log_persisted,
        List.map_cons, List.sum_cons]
      ring

lemma foldl_tokenStep_sum_log_non_self_persisted (mp mvI : Int) (sp : Rat)
    (rp nsp : Int) (l : List Token) : ∀ s : Stats,
    (l.foldl (tokenStep mp mvI sp rp nsp) s).sum_log_non_self_persisted =
      s.sum_log_non_self_persisted +
        (l.map (fun t => Real.log ((t.non_self_persisted : Real) + 1))).sum := by
  induction l with
  | nil => intro s; simp
  | cons t l ih =>
      intro s
      simp only [List.foldl_cons, ih, tokenStep_sum_log_non_self_persisted,
        List.map_cons, List.sum_cons]
      ring

lemma foldl_tokenStep_sum_log_seconds_visible (mp mvI : Int) (sp : Rat)
    (rp nsp : Int) (l : List Token) : ∀ s : Stats,
    (l.foldl (tokenStep mp mvI sp rp nsp) s).sum_log_seconds_visible =
      s.sum_log_seconds_visible +
        (l.map (fun t => Real.log ((t.seconds_visible : Real) + 1))).sum := by
  induction l with
  | nil => intro s; simp
  | cons t l ih =>
      intro s
      simp only [List.foldl_cons, ih, tokenStep_sum_log_seconds_visible,
        List.map_cons, List.sum_cons]
      ring

lemma foldl_tokenStep_censored (mp mvI : Int) (sp : Rat) (rp nsp : Int)
    (l : List Token) : ∀ s : Stats,
    (l.foldl (tokenStep mp mvI sp rp nsp) s).censored =
      (s.censored || l.any (censContrib mp mvI sp rp)) := by
  induction l with
  | nil => intro s; simp
  | cons t l ih =>
      intro s
      simp only [List.foldl_cons, ih, tokenStep_censored, List.any_cons,
        Bool.or_assoc]

lemma foldl_tokenStep_non_self_censored (mp mvI : Int) (sp : Rat)
    (rp nsp : Int) (l : List Token) : ∀ s : Stats,
    (l.foldl (tokenStep mp mvI sp rp nsp) s).non_self_censored =
      (s.non_self_censored || l.any (nsCensContrib mp mvI sp nsp)) := by
  induction l with
  | nil => intro s; simp
  | cons t l ih =>
      intro s
      simp only [List.foldl_cons, ih, tokenStep_non_self_censored,
        List.any_cons, Bool.or_assoc]

lemma any_eq_of_perm {l1 l2 : List Token} (h : l1.Perm l2) (p : Token → Bool) :
    l1.any p = l2.any p := by
  cases e1 : l1.any p <;> cases e2 : l2.any p <;> try rfl
  · rw [List.any_eq_false] at e1
    rw [List.any_eq_true] at e2
    obtain ⟨x, hx, hpx⟩ := e2
    exact absurd hpx (e1 x (h.mem_iff.mpr hx))
  · rw [List.any_eq_false] at e2
    rw [List.any_eq_true] at e1
    obtain ⟨x, hx, hpx⟩ := e1
    exact absurd hpx (e2 x (h.mem_iff.mp hx))

lemma docStats_perm (mp mvI : Int) (inc exc : String → Bool) (sp : Rat)
    (rp nsp : Int) {ts ts' : List Token} (h : ts.Perm ts') :
    docStats mp mvI inc exc sp rp nsp ts =
      docStats mp mvI inc exc sp rp nsp ts' := by
  have hf : (ts.filter (passFilter inc exc)).Perm
      (ts'.filter (passFilter inc exc)) := h.filter _
  unfold docStats
  ext
  · rw [foldl_tokenStep_tokens_added, foldl_tokenStep_tokens_added,
      hf.length_eq]
  · rw [foldl_tokenStep_persistent_tokens, foldl_tokenStep_persistent_tokens,
      (hf.map (persistContrib mp mvI)).sum_eq]
  · rw [foldl_tokenStep_non_self_persistent_tokens,
      foldl_tokenStep_non_self_persistent_tokens,
      (hf.map (nsPersistContrib mp mvI)).sum_eq]
  · rw [foldl_tokenStep_sum_log_persisted, foldl_tokenStep_sum_log_persisted,
      (hf.map _).sum_eq]
  · rw [foldl_tokenStep_sum_log_non_self_persisted,
      foldl_tokenStep_sum_log_non_self_persisted, (hf.map _).sum_eq]
  · rw [foldl_tokenStep_sum_log_seconds_visible,
      foldl_tokenStep_sum_log_seconds_visible, (hf.map _).sum_eq]
  · rw [foldl_tokenStep_censored, foldl_tokenStep_censored,
      any_eq_of_perm hf]
  · rw [foldl_tokenStep_non_self_censored, foldl_tokenStep_non_self_censored,
      any_eq_of_perm hf]

lemma pyInt_cast_le {mv sv : Rat} (hle : mv ≤ sv) (hsv : 0 ≤ sv) :
    ((pyInt mv : Int) : Rat) ≤ sv := by
  unfold pyInt
  split_ifs with h0
  · exact le_trans (Int.floor_le mv) hle
  · have hc : ⌈mv⌉ ≤ (0 : Int) :=
      Int.ceil_le.mpr (by simpa using le_of_lt (not_le.mp h0))
    calc ((⌈mv⌉ : Int) : Rat) ≤ ((0 : Int) : Rat) := by exact_mod_cast hc
      _ ≤ sv := by simpa using hsv

/-- C1: Scenario A decision table.  Aggregating the document whose single
token has `persisted = 6`, `non_self_persisted = 2`, `seconds_visible = 100`,
with `seconds_possible = 40000`, `revisions_processed = 6`,
`non_self_processed = 3`, under `min_persisted = 5` and
`min_visible = 36000`, yields `tokens_added = 1`, `persistent_tokens = 1`,
`non_self_persistent_tokens = 0`, `censored = false`,
`non_self_censored = true`. -/
theorem C1_scenario_a_decision_table :
    ((aggregateDoc 5 36000 none none scenarioADoc).bind
        (fun d => d.persistence.stats)).map Stats.tokens_added = some 1 ∧
    ((aggregateDoc 5 36000 none none scenarioADoc).bind
        (fun d => d.persistence.stats)).map Stats.persistent_tokens = some 1 ∧
    ((aggregateDoc 5 36000 none none scenarioADoc).bind
        (fun d => d.persistence.stats)).map Stats.non_self_persistent_tokens =
      some 0 ∧
    ((aggregateDoc 5 36000 none none scenarioADoc).bind
        (fun d => d.persistence.stats)).map Stats.censored = some false ∧
    ((aggregateDoc 5 36000 none none scenarioADoc).bind
        (fun d => d.persistence.stats)).map Stats.non_self_censored =
      some true := by
  decide

/-- C2: time-threshold priority.  For every threshold `mv` (a rational,
standing for the float parameter) and every retained token whose
non-negative `seconds_visible` is at least `mv`, the loop body increments
both `persistent_tokens` and `non_self_persistent_tokens` by exactly one —
whatever `persisted` and `non_self_persisted` are — and leaves both
censoring flags untouched. -/
theorem C2_time_threshold_priority (mp : Int) (mv : Rat) (sp : Rat)
    (rp nsp : Int) (s : Stats) (t : Token)
    (hle : mv ≤ t.seconds_visible) (hsv : 0 ≤ t.seconds_visible) :
    (tokenStep mp (pyInt mv) sp rp nsp s t).persistent_tokens =
      s.persistent_tokens + 1 ∧
    (tokenStep mp (pyInt mv) sp rp nsp s t).non_self_persistent_tokens =
      s.non_self_persistent_tokens + 1 ∧
    (tokenStep mp (pyInt mv) sp rp nsp s t).censored = s.censored ∧
    (tokenStep mp (pyInt mv) sp rp nsp s t).non_self_censored =
      s.non_self_censored := by
  have key : ((pyInt mv : Int) : Rat) ≤ t.seconds_visible :=
    pyInt_cast_le hle hsv
  refine ⟨?_, ?_, ?_, ?_⟩
  · rw [tokenStep_persistent_tokens]
    unfold persistContrib
    rw [if_pos key]
  · rw [tokenStep_non_self_persistent_tokens]
    unfold nsPersistContrib
    rw [if_pos key]
  · rw [tokenStep_censored]
    unfold censContrib
    simp [key]
  · rw [tokenStep_non_self_censored]
    unfold nsCensContrib
    simp [key]

/-- Witness for C2 at `min_persisted = 5`, `min_visible = 36000`, a token
with `seconds_visible = 40000` and both persistence counts `0`. -/
theorem C2_time_threshold_priority_witness :
    (tokenStep 5 (pyInt 36000) 40000 0 0 initStats
        { text := "x", persisted := 0, non_self_persisted := 0,
          seconds_visible := 40000 }).persistent_tokens =
      initStats.persistent_tokens + 1 ∧
    (tokenStep 5 (pyInt 36000) 40000 0 0 initStats
        { text := "x", persisted := 0, non_self_persisted := 0,
          seconds_visible := 40000 }).non_self_persistent_tokens =
      initStats.non_self_persistent_tokens + 1 ∧
    (tokenStep 5 (pyInt 36000) 40000 0 0 initStats
        { text := "x", persisted := 0, non_self_persisted := 0,
          seconds_visible := 40000 }).censored = initStats.censored ∧
    (tokenStep 5 (pyInt 36000) 40000 0 0 initStats
        { text := "x", persisted := 0, non_self_persisted := 0,
          seconds_visible := 40000 }).non_self_censored =
      initStats.non_self_censored :=
  C2_time_threshold_priority 5 36000 40000 0 0 initStats
    { text := "x", persisted := 0, non_self_persisted := 0,
      seconds_visible := 40000 } (by decide) (by decide)

/-- Document refuting C3 as stated: one token with all persistence
evidence zero, `seconds_possible = 0`, and large processed counts. -/
def c3Doc : RevDoc Unit :=
  { context := ()
    persistence :=
      { tokens := some [{ text := "x", persisted := 0, non_self_persisted := 0,
                          seconds_visible := 0 }]
        seconds_possible := 0
        revisions_processed := 9
        non_self_processed := 9
        stats := none } }

/-- C3 counterexample.  With `min_persisted = 5` and the fractional
threshold `min_visible = 1/2`, the single token of `c3Doc` fails the
claim's time threshold (`seconds_visible = 0 < 1/2`) and the document has
`seconds_possible = 0 < 1/2`, so the claim as stated demands
`censored = true` and `non_self_censored = true`; but the code truncates
the threshold to `int(1/2) = 0` first, takes the time branch
(`0 >= 0`), and leaves both flags `false`. -/
theorem C3_censoring_counterexample :
    ¬ ((1 / 2 : Rat) ≤ (0 : Rat)) ∧
    c3Doc.persistence.seconds_possible < (1 / 2 : Rat) ∧
    ((aggregateDoc 5 (1 / 2) none none c3Doc).bind
        (fun d => d.persistence.stats)).map Stats.censored = some false ∧
    ((aggregateDoc 5 (1 / 2) none none c3Doc).bind
        (fun d => d.persistence.stats)).map Stats.non_self_censored =
      some false := by
  have h12 : pyInt (1 / 2 : Rat) = 0 := by norm_num [pyInt]
  refine ⟨by norm_num, by norm_num [c3Doc], ?_, ?_⟩
  · simp only [aggregateDoc, h12]
    decide
  · simp only [aggregateDoc, h12]
    decide

/-- C3 amended: the censoring rule holds with the integer-truncated
threshold `mvI = int(min_visible)`.  For a retained token that fails the
(truncated) time threshold: if `seconds_possible < mvI` both flags are
set true regardless of the count outcomes; otherwise the step leaves
`censored = censored OR (revisions_processed < min_persisted)` and
`non_self_censored = non_self_censored OR (non_self_processed <
min_persisted)`; and across the rest of the document both flags are
monotone — once true they never reset. -/
theorem C3_censoring_amended (mp mvI : Int) (sp : Rat) (rp nsp : Int)
    (s : Stats) (t : Token)
    (h : ¬ ((mvI : Rat) ≤ t.seconds_visible)) :
    (sp < (mvI : Rat) →
      (tokenStep mp mvI sp rp nsp s t).censored = true ∧
      (tokenStep mp mvI sp rp nsp s t).non_self_censored = true) ∧
    (¬ sp < (mvI : Rat) →
      (tokenStep mp mvI sp rp nsp s t).censored =
        (s.censored || decide (rp < mp)) ∧
      (tokenStep mp mvI sp rp nsp s t).non_self_censored =
        (s.non_self_censored || decide (nsp < mp))) ∧
    (∀ (l : List Token) (s0 : Stats), s0.censored = true →
      (l.foldl (tokenStep mp mvI sp rp nsp) s0).censored = true) ∧
    (∀ (l : List Token) (s0 : Stats), s0.non_self_censored = true →
      (l.foldl (tokenStep mp mvI sp rp nsp) s0).non_self_censored = true) := by
  refine ⟨?_, ?_, ?_, ?_⟩
  · intro hsp
    rw [tokenStep_censored, tokenStep_non_self_censored]
    unfold censContrib nsCensContrib
    simp [h, hsp]
  · intro hsp
    rw [tokenStep_censored, tokenStep_non_self_censored]
    unfold censContrib nsCensContrib
    simp [h, hsp]
  · intro l s0 h0
    rw [foldl_tokenStep_censored, h0, Bool.true_or]
  · intro l s0 h0
    rw [foldl_tokenStep_non_self_censored, h0, Bool.true_or]

/-- Witness for the amended C3 at `min_persisted = 5`, truncated
threshold `3`, a token with `seconds_visible = 1`, `seconds_possible = 1`,
`revisions_processed = 2`, `non_self_processed = 9`. -/
theorem C3_censoring_amended_witness :
    ((1 : Rat) < ((3 : Int) : Rat) →
      (tokenStep 5 3 1 2 9 initStats
          { text := "x", persisted := 0, non_self_persisted := 0,
            seconds_visible := 1 }).censored = true ∧
      (tokenStep 5 3 1 2 9 initStats
          { text := "x", persisted := 0, non_self_persisted := 0,
            seconds_visible := 1 }).non_self_censored = true) ∧
    (¬ (1 : Rat) < ((3 : Int) : Rat) →
      (tokenStep 5 3 1 2 9 initStats
          { text := "x", persisted := 0, non_self_persisted := 0,
            seconds_visible := 1 }).censored =
        (initStats.censored || decide ((2 : Int) < 5)) ∧
      (tokenStep 5 3 1 2 9 initStats
          { text := "x", persisted := 0, non_self_persisted := 0,
            seconds_visible := 1 }).non_self_censored =
        (initStats.non_self_censored || decide ((9 : Int) < 5))) ∧
    (∀ (l : List Token) (s0 : Stats), s0.censored = true →
      (l.foldl (tokenStep 5 3 1 2 9) s0).censored = true) ∧
    (∀ (l : List Token) (s0 : Stats), s0.non_self_censored = true →
      (l.foldl (tokenStep 5 3 1 2 9) s0).non_self_censored = true) :=
  C3_censoring_amended 5 3 1 2 9 initStats
    { text := "x", persisted := 0, non_self_persisted := 0,
      seconds_visible := 1 } (by decide)

/-- C4: filter contract.  The default `include`/`exclude` behave as the
constant-true/constant-false predicates; statistics depend only on the
tokens passing `include(text) AND NOT exclude(text)` (pre-filtering the
token list changes nothing); and when no token passes the filter, the
aggregation yields `tokens_added = 0`, all three log-sums `0`, and both
censoring flags `false`. -/
theorem C4_filter_contract {α : Type} (mp : Int) (mv : Rat) (mvI : Int)
    (inc? exc? : Option (String → Bool)) (sp : Rat) (rp nsp : Int)
    (ts : List Token) (d : RevDoc α) :
    aggregateDoc mp mv none none d =
      aggregateDoc mp mv (some (fun _ => true)) (some (fun _ => false)) d ∧
    docStats mp mvI (resolveInc inc?) (resolveExc exc?) sp rp nsp ts =
      docStats mp mvI (resolveInc inc?) (resolveExc exc?) sp rp nsp
        (ts.filter (passFilter (resolveInc inc?) (resolveExc exc?))) ∧
    ((∀ t ∈ ts, ¬ passFilter (resolveInc inc?) (resolveExc exc?) t = true) →
      (docStats mp mvI (resolveInc inc?) (resolveExc exc?) sp rp nsp
          ts).tokens_added = 0 ∧
      (docStats mp mvI (resolveInc inc?) (resolveExc exc?) sp rp nsp
          ts).sum_log_persisted = 0 ∧
      (docStats mp mvI (resolveInc inc?) (resolveExc exc?) sp rp nsp
          ts).sum_log_non_self_persisted = 0 ∧
      (docStats mp mvI (resolveInc inc?) (resolveExc exc?) sp rp nsp
          ts).sum_log_seconds_visible = 0 ∧
      (docStats mp mvI (resolveInc inc?) (resolveExc exc?) sp rp nsp
          ts).censored = false ∧
      (docStats mp mvI (resolveInc inc?) (resolveExc exc?) sp rp nsp
          ts).non_self_censored = false) := by
  refine ⟨rfl, ?_, ?_⟩
  · unfold docStats
    rw [List.filter_filter]
    simp [Bool.and_self]
  · intro h
    have hnil : ts.filter (passFilter (resolveInc inc?) (resolveExc exc?)) = [] :=
      List.filter_eq_nil_iff.mpr h
    unfold docStats
    rw [hnil]
    simp [initStats]

/-- Example token for the C4 witness. -/
def c4Token : Token :=
  { text := "apple", persisted := 3, non_self_persisted := 2,
    seconds_visible := 10 }

/-- Example document for the C4 witness. -/
def c4Doc : RevDoc Unit :=
  { context := ()
    persistence :=
      { tokens := some [c4Token]
        seconds_possible := 20
        revisions_processed := 4
        non_self_processed := 4
        stats := none } }

/-- Witness for C4 with an exclude-everything predicate: nothing passes,
so all counters are zero and both flags false. -/
theorem C4_filter_contract_witness :
    (docStats 5 36000 (resolveInc none) (resolveExc (some (fun _ => true)))
        20 4 4 [c4Token]).tokens_added = 0 ∧
    (docStats 5 36000 (resolveInc none) (resolveExc (some (fun _ => true)))
        20 4 4 [c4Token]).sum_log_persisted = 0 ∧
    (docStats 5 36000 (resolveInc none) (resolveExc (some (fun _ => true)))
        20 4 4 [c4Token]).sum_log_non_self_persisted = 0 ∧
    (docStats 5 36000 (resolveInc none) (resolveExc (some (fun _ => true)))
        20 4 4 [c4Token]).sum_log_seconds_visible = 0 ∧
    (docStats 5 36000 (resolveInc none) (resolveExc (some (fun _ => true)))
        20 4 4 [c4Token]).censored = false ∧
    (docStats 5 36000 (resolveInc none) (resolveExc (some (fun _ => true)))
        20 4 4 [c4Token]).non_self_censored = false :=
  (C4_filter_contract 5 36000 36000 none (some (fun _ => true)) 20 4 4
    [c4Token] c4Doc).2.2 (by decide)

/-- C5: idempotence.  If a document still has its raw `tokens`, running
the aggregation on its own output changes nothing (the same statistics
are recomputed from the unchanged token list and overwrite themselves);
running the aggregation on the pruned document is a precondition
violation (the `KeyError` case, modelled as `none`). -/
theorem C5_aggregation_idempotent {α : Type} (mp : Int) (mv : Rat)
    (inc? exc? : Option (String → Bool)) (d : RevDoc α) (ts : List Token)
    (h : d.persistence.tokens = some ts) :
    (aggregateDoc mp mv inc? exc? d).bind (aggregateDoc mp mv inc? exc?) =
      aggregateDoc mp mv inc? exc? d ∧
    aggregateDoc mp mv inc? exc? (dropTokensDoc d) = none := by
  obtain ⟨ctx, tk, sp, rp, nsp, st⟩ := d
  replace h : tk = some ts := h
  subst h
  exact ⟨rfl, rfl⟩

/-- Example document for the C5 witness. -/
def c5Doc : RevDoc Unit :=
  { context := ()
    persistence :=
      { tokens := some [{ text := "x", persisted := 7, non_self_persisted := 7,
                          seconds_visible := 50 }]
        seconds_possible := 100
        revisions_processed := 8
        non_self_processed := 8
        stats := none } }

/-- Witness for C5 on a concrete unpruned document. -/
theorem C5_aggregation_idempotent_witness :
    (aggregateDoc 5 36000 none none c5Doc).bind (aggregateDoc 5 36000 none none) =
      aggregateDoc 5 36000 none none c5Doc ∧
    aggregateDoc 5 36000 none none (dropTokensDoc c5Doc) = none :=
  C5_aggregation_idempotent 5 36000 none none c5Doc
    [{ text := "x", persisted := 7, non_self_persisted := 7,
       seconds_visible := 50 }] rfl

/-- C6: order insensitivity.  Aggregating a document whose token list is
a permutation of another's (all other fields equal) writes the same
statistics record: same `tokens_added`, same three log-sums, same
persistence counters, same censoring flags. -/
theorem C6_order_insensitivity {α : Type} (mp : Int) (mv : Rat)
    (inc? exc? : Option (String → Bool)) (ctx : α) (sp : Rat) (rp nsp : Int)
    (st : Option Stats) (ts ts' : List Token) (h : ts.Perm ts') :
    ((aggregateDoc mp mv inc? exc?
        { context := ctx
          persistence :=
            { tokens := some ts, seconds_possible := sp,
              revisions_processed := rp, non_self_processed := nsp,
              stats := st } }).bind (fun d => d.persistence.stats)) =
      ((aggregateDoc mp mv inc? exc?
        { context := ctx
          persistence :=
            { tokens := some ts', seconds_possible := sp,
              revisions_processed := rp, non_self_processed := nsp,
              stats := st } }).bind (fun d => d.persistence.stats)) := by
  have hd : docStats mp (pyInt mv) (resolveInc inc?) (resolveExc exc?)
      sp rp nsp ts =
      docStats mp (pyInt mv) (resolveInc inc?) (resolveExc exc?)
        sp rp nsp ts' :=
    docStats_perm _ _ _ _ _ _ _ h
  simp [aggregateDoc, hd]

/-- First token of the C6 witness document. -/
def c6Tok1 : Token :=
  { text := "a", persisted := 1, non_self_persisted := 2,
    seconds_visible := 3 }

/-- Second token of the C6 witness document. -/
def c6Tok2 : Token :=
  { text := "b", persisted := 6, non_self_persisted := 5,
    seconds_visible := 40000 }

/-- Witness for C6: swapping the two tokens of a concrete document. -/
theorem C6_order_insensitivity_witness :
    ((aggregateDoc 5 36000 none none
        { context := ()
          persistence :=
            { tokens := some [c6Tok1, c6Tok2], seconds_possible := 7,
              revisions_processed := 8, non_self_processed := 9,
              stats := none } }).bind (fun d => d.persistence.stats)) =
      ((aggregateDoc 5 36000 none none
        { context := ()
          persistence :=
            { tokens := some [c6Tok2, c6Tok1], seconds_possible := 7,
              revisions_processed := 8, non_self_processed := 9,
              stats := none } }).bind (fun d => d.persistence.stats)) :=
  C6_order_insensitivity 5 36000 none none () 7 8 9 none
    [c6Tok1, c6Tok2] [c6Tok2, c6Tok1] (List.Perm.swap c6Tok2 c6Tok1 [])

/-- C7: Field Pruner frame.  `dropTokensDoc` empties `persistence.tokens`
and leaves every other field — the context fields, the three window
fields, and the stats — unchanged; if `tokens` is already absent it is
the identity. -/
theorem C7_prune_frame {α : Type} (d : RevDoc α) :
    (dropTokensDoc d).persistence.tokens = none ∧
    (dropTokensDoc d).context = d.context ∧
    (dropTokensDoc d).persistence.seconds_possible =
      d.persistence.seconds_possible ∧
    (dropTokensDoc d).persistence.revisions_processed =
      d.persistence.revisions_processed ∧
    (dropTokensDoc d).persistence.non_self_processed =
      d.persistence.non_self_processed ∧
    (dropTokensDoc d).persistence.stats = d.persistence.stats ∧
    (d.persistence.tokens = none → dropTokensDoc d = d) := by
  obtain ⟨ctx, tk, sp, rp, nsp, st⟩ := d
  refine ⟨rfl, rfl, rfl, rfl, rfl, rfl, ?_⟩
  intro h
  replace h : tk = none := h
  subst h
  rfl

/-- Example already-pruned document for the C7 witness. -/
def c7Doc : RevDoc Unit :=
  { context := ()
    persistence :=
      { tokens := none
        seconds_possible := 5
        revisions_processed := 6
        non_self_processed := 7
        stats := none } }

/-- Witness for C7 on a concrete already-pruned document. -/
theorem C7_prune_frame_witness :
    (dropTokensDoc c7Doc).persistence.tokens = none ∧
    dropTokensDoc c7Doc = c7Doc :=
  ⟨(C7_prune_frame c7Doc).1, (C7_prune_frame c7Doc).2.2.2.2.2.2 rfl⟩

lemma foldl_tokenStepV_fst (v : Bool) (mp mvI : Int) (sp : Rat)
    (rp nsp : Int) (l : List Token) : ∀ (s : Stats) (o : List String),
    (l.foldl (tokenStepV v mp mvI sp rp nsp) (s, o)).1 =
      l.foldl (tokenStep mp mvI sp rp nsp) s := by
  induction l with
  | nil => intro s o; rfl
  | cons t l ih =>
      intro s o
      simp only [List.foldl_cons, tokenStepV]
      exact ih _ _

lemma aggregateDocV_fst {α : Type} (v : Bool) (mp : Int) (mv : Rat)
    (inc? exc? : Option (String → Bool)) (d : RevDoc α) :
    (aggregateDocV v mp mv inc? exc? d).1 = aggregateDoc mp mv inc? exc? d := by
  obtain ⟨ctx, tk, sp, rp, nsp, st⟩ := d
  cases tk with
  | none => rfl
  | some ts =>
      simp only [aggregateDocV, aggregateDoc, foldl_tokenStepV_fst, docStats]

/-- C8: verbose noninterference.  For every configuration and every
input document sequence, the output document stream computed with the
verbose flag on equals the one computed with it off (for any two values
of the flag): the flag only changes the diagnostic side channel. -/
theorem C8_verbose_noninterference {α : Type} (mp : Int) (mv : Rat)
    (inc? exc? : Option (String → Bool)) (v1 v2 : Bool)
    (docs : List (RevDoc α)) :
    (persistence2stats v1 mp mv inc? exc? docs).1 =
      (persistence2stats v2 mp mv inc? exc? docs).1 := by
  induction docs with
  | nil => rfl
  | cons d ds ih =>
      simp only [persistence2stats]
      rw [aggregateDocV_fst v1, aggregateDocV_fst v2]
      cases aggregateDoc mp mv inc? exc? d with
      | none => rfl
      | some d' => simp only [ih]

lemma sum_map_int_bounds (f : Token → Int) (h0 : ∀ t, 0 ≤ f t)
    (h1 : ∀ t, f t ≤ 1) (l : List Token) :
    0 ≤ (l.map f).sum ∧ (l.map f).sum ≤ (l.length : Int) := by
  induction l with
  | nil => simp
  | cons t l ih =>
      simp only [List.map_cons, List.sum_cons, List.length_cons]
      constructor
      · have := h0 t
        omega
      · have := h1 t
        omega

/-- C9: implicit invariants.  For well-formed token evidence (all counts
and durations non-negative), the aggregated statistics satisfy
`0 <= persistent_tokens <= tokens_added`,
`0 <= non_self_persistent_tokens <= tokens_added`, and all three log-sums
are non-negative. -/
theorem C9_stats_invariants (mp mvI : Int) (inc exc : String → Bool)
    (sp : Rat) (rp nsp : Int) (ts : List Token)
    (wf : ∀ t ∈ ts, 0 ≤ t.persisted ∧ 0 ≤ t.non_self_persisted ∧
      0 ≤ t.seconds_visible) :
    0 ≤ (docStats mp mvI inc exc sp rp nsp ts).persistent_tokens ∧
    (docStats mp mvI inc exc sp rp nsp ts).persistent_tokens ≤
      (docStats mp mvI inc exc sp rp nsp ts).tokens_added ∧
    0 ≤ (docStats mp mvI inc exc sp rp nsp ts).non_self_persistent_tokens ∧
    (docStats mp mvI inc exc sp rp nsp ts).non_self_persistent_tokens ≤
      (docStats mp mvI inc exc sp rp nsp ts).tokens_added ∧
    0 ≤ (docStats mp mvI inc exc sp rp nsp ts).sum_log_persisted ∧
    0 ≤ (docStats mp mvI inc exc sp rp nsp ts).sum_log_non_self_persisted ∧
    0 ≤ (docStats mp mvI inc exc sp rp nsp ts).sum_log_seconds_visible := by
  have hp0 : ∀ t, 0 ≤ persistContrib mp mvI t := by
    intro t; unfold persistContrib; split_ifs <;> norm_num
  have hp1 : ∀ t, persistContrib mp mvI t ≤ 1 := by
    intro t; unfold persistContrib; split_ifs <;> norm_num
  have hn0 : ∀ t, 0 ≤ nsPersistContrib mp mvI t := by
    intro t; unfold nsPersistContrib; split_ifs <;> norm_num
  have hn1 : ∀ t, nsPersistContrib mp mvI t ≤ 1 := by
    intro t; unfold nsPersistContrib; split_ifs <;> norm_num
  have hwf : ∀ t ∈ ts.filter (passFilter inc exc),
      0 ≤ t.persisted ∧ 0 ≤ t.non_self_persisted ∧ 0 ≤ t.seconds_visible :=
    fun t ht => wf t (List.mem_of_mem_filter ht)
  have hb1 := sum_map_int_bounds (persistContrib mp mvI) hp0 hp1
    (ts.filter (passFilter inc exc))
  have hb2 := sum_map_int_bounds (nsPersistContrib mp mvI) hn0 hn1
    (ts.filter (passFilter inc exc))
  unfold docStats
  rw [foldl_tokenStep_persistent_tokens,
    foldl_tokenStep_non_self_persistent_tokens, foldl_tokenStep_tokens_added,
    foldl_tokenStep_sum_log_persisted,
    foldl_tokenStep_sum_log_non_self_persisted,
    foldl_tokenStep_sum_log_seconds_visible]
  simp only [initStats, zero_add]
  refine ⟨hb1.1, hb1.2, hb2.1, hb2.2, ?_, ?_, ?_⟩
  · refine List.sum_nonneg ?_
    intro x hx
    obtain ⟨t, ht, rfl⟩ := List.mem_map.mp hx
    refine Real.log_nonneg ?_
    have : (0 : Real) ≤ (t.persisted : Real) := by
      exact_mod_cast (hwf t ht).1
    linarith
  · refine List.sum_nonneg ?_
    intro x hx
    obtain ⟨t, ht, rfl⟩ := List.mem_map.mp hx
    refine Real.log_nonneg ?_
    have : (0 : Real) ≤ (t.non_self_persisted : Real) := by
      exact_mod_cast (hwf t ht).2.1
    linarith
  · refine List.sum_nonneg ?_
    intro x hx
    obtain ⟨t, ht, rfl⟩ := List.mem_map.mp hx
    refine Real.log_nonneg ?_
    have : (0 : Real) ≤ (t.seconds_visible : Real) := by
      exact_mod_cast (hwf t ht).2.2
    linarith

/-- Token list for the C9 witness. -/
def c9Tokens : List Token :=
  [{ text := "x", persisted := 2, non_self_persisted := 1,
     seconds_visible := 50 },
   { text := "y", persisted := 9, non_self_persisted := 9,
     seconds_visible := 40000 }]

/-- Witness for C9 on a concrete two-token list. -/
theorem C9_stats_invariants_witness :
    0 ≤ (docStats 5 36000 (resolveInc none) (resolveExc none) 100 6 3
        c9Tokens).persistent_tokens ∧
    (docStats 5 36000 (resolveInc none) (resolveExc none) 100 6 3
        c9Tokens).persistent_tokens ≤
      (docStats 5 36000 (resolveInc none) (resolveExc none) 100 6 3
        c9Tokens).tokens_added ∧
    0 ≤ (docStats 5 36000 (resolveInc none) (resolveExc none) 100 6 3
        c9Tokens).non_self_persistent_tokens ∧
    (docStats 5 36000 (resolveInc none) (resolveExc none) 100 6 3
        c9Tokens).non_self_persistent_tokens ≤
      (docStats 5 36000 (resolveInc none) (resolveExc none) 100 6 3
        c9Tokens).tokens_added ∧
    0 ≤ (docStats 5 36000 (resolveInc none) (resolveExc none) 100 6 3
        c9Tokens).sum_log_persisted ∧
    0 ≤ (docStats 5 36000 (resolveInc none) (resolveExc none) 100 6 3
        c9Tokens).sum_log_non_self_persisted ∧
    0 ≤ (docStats 5 36000 (resolveInc none) (resolveExc none) 100 6 3
        c9Tokens).sum_log_seconds_visible :=
  C9_stats_invariants 5 36000 (resolveInc none) (resolveExc none) 100 6 3
    c9Tokens (by decide)

/-- C10: threshold truncation.  `persistence2stats` applies `int()` to
`min_visible` before any comparison, so for every non-negative rational
threshold `t` the whole per-document aggregation with threshold `t`
coincides with the aggregation with threshold `floor(t)` — covering both
the `seconds_visible` time test and the `seconds_possible` censoring
test. -/
theorem C10_threshold_truncation {α : Type} (mp : Int)
    (inc? exc? : Option (String → Bool)) (t : Rat) (ht : 0 ≤ t)
    (d : RevDoc α) :
    aggregateDoc mp t inc? exc? d =
      aggregateDoc mp ((⌊t⌋ : Int) : Rat) inc? exc? d := by
  have key : pyInt t = pyInt ((⌊t⌋ : Int) : Rat) := by
    unfold pyInt
    rw [if_pos ht, if_pos (by exact_mod_cast Int.floor_nonneg.mpr ht),
      Int.floor_intCast]
  simp only [aggregateDoc, key]

/-- Document for the C10 witness. -/
def c10Doc : RevDoc Unit :=
  { context := ()
    persistence :=
      { tokens := some [{ text := "x", persisted := 1, non_self_persisted := 1,
                          seconds_visible := 3 }]
        seconds_possible := 3
        revisions_processed := 2
        non_self_processed := 2
        stats := none } }

/-- Witness for C10 at the fractional threshold `7/2`. -/
theorem C10_threshold_truncation_witness :
    aggregateDoc 5 (7 / 2) none none c10Doc =
      aggregateDoc 5 ((⌊(7 / 2 : Rat)⌋ : Int) : Rat) none none c10Doc :=
  C10_threshold_truncation 5 none none (7 / 2) (by norm_num) c10Doc
